import Mathlib

/-!
Verification of the example script of Cursor-To-OpenAI-Nexus
(`src/example.py`) against its natural-language specification.

The script parses five CLI flags (with environment-variable and literal
fallbacks for the key and base URL), constructs one OpenAI client, prints a
three-line preamble, issues exactly one chat-completion call, and renders the
result either incrementally (streaming) or as one block followed by usage
metadata.  We embed the script as a pure function from the command line, the
environment, and an endpoint oracle to a run result recording the requests
issued, standard output, standard error, and the process exit code.
-/

namespace ExampleScript

/-- A chat message as placed in the request body: `{"role": ..., "content": ...}`
(lines 42-44 and 57-59 of `example.py`). -/
structure Message where
  role : String
  content : String
deriving Repr, DecidableEq

/-- The JSON body of a chat-completion request as built by
`client.chat.completions.create(model=..., messages=..., stream=...)`. -/
structure RequestBody where
  model : String
  messages : List Message
  stream : Bool
deriving Repr, DecidableEq

/-- Token usage metadata of a non-streaming response (`response.usage`). -/
structure Usage where
  prompt_tokens : Nat
  completion_tokens : Nat
  total_tokens : Nat
deriving Repr, DecidableEq

/-- The message inside a non-streaming response choice
(`response.choices[0].message`). -/
structure ChoiceMessage where
  content : String
deriving Repr, DecidableEq

/-- One element of `response.choices`. -/
structure Choice where
  message : ChoiceMessage
deriving Repr, DecidableEq

/-- A non-streaming chat-completion response: `choices`, echoed `model`,
and `usage` (lines 64-69 of `example.py` read exactly these fields). -/
structure Response where
  choices : List Choice
  model : String
  usage : Usage
deriving Repr, DecidableEq

/-- The delta of a streaming chunk choice (`chunk.choices[0].delta`);
its `content` is null (`none`) for some chunks. -/
structure Delta where
  content : Option String
deriving Repr, DecidableEq

/-- One element of `chunk.choices`. -/
structure ChunkChoice where
  delta : Delta
deriving Repr, DecidableEq

/-- A streaming response chunk; the script indexes `chunk.choices[0]`. -/
structure Chunk where
  choices : List ChunkChoice
deriving Repr, DecidableEq

/-- The command line as parsed by argparse: each string flag is either given
(`some v`) or absent (`none`); `--stream` is a `store_true` flag, so we record
whether it was given. -/
structure CmdLine where
  api_key : Option String
  base_url : Option String
  model : Option String
  prompt : Option String
  stream_given : Bool
deriving Repr, DecidableEq

/-- The process environment restricted to the two variables the script reads
via `os.environ.get` (lines 16 and 18). -/
structure Env where
  cursor_api_key : Option String
  cursor_base_url : Option String
deriving Repr, DecidableEq

/-- The resolved arguments, i.e. the `args` namespace after
`parser.parse_args()` (line 26). -/
structure Args where
  api_key : String
  base_url : String
  model : String
  prompt : String
  stream : Bool
deriving Repr, DecidableEq

/-- The `OpenAI(...)` client object constructed at lines 29-32: it receives
the resolved key and base URL. -/
structure OpenAI where
  api_key : String
  base_url : String
deriving Repr, DecidableEq

/-- Resolution of the five flags (lines 16-26): `--api-key` defaults to
`os.environ.get("CURSOR_API_KEY", "sk-cursor-api-key")`, `--base-url` to
`os.environ.get("CURSOR_BASE_URL", "http://localhost:3010/v1")`, `--model`
and `--prompt` to fixed literals, and `--stream` to false (absent). -/
def parse_args (cmd : CmdLine) (env : Env) : Args :=
  { api_key := cmd.api_key.getD (env.cursor_api_key.getD "sk-cursor-api-key")
    base_url := cmd.base_url.getD (env.cursor_base_url.getD "http://localhost:3010/v1")
    model := cmd.model.getD "claude-3.7-sonnet-thinking"
    prompt := cmd.prompt.getD "Explain quantum computing in simple terms."
    stream := cmd.stream_given }

/-- The request body built at lines 40-46 (streaming) and 55-61
(non-streaming): one user message carrying the prompt. -/
def request_of (args : Args) : RequestBody :=
  { model := args.model
    messages := [{ role := "user", content := args.prompt }]
    stream := args.stream }

/-- The separator `"-" * 50` printed at lines 36 and 65. -/
def dashes : String := String.mk (List.replicate 50 '-')

/-- The three preamble prints at lines 34-36, as the text they write to
standard output. -/
def preamble (args : Args) : String :=
  "Sending request to " ++ args.model ++ "...\n"
    ++ "Prompt: " ++ args.prompt ++ "\n"
    ++ dashes ++ "\n"

/-- The streaming for-loop at lines 49-51: for each chunk, index
`chunk.choices[0]` (an IndexError when `choices` is empty) and print the
delta content with no terminator when it is not null.  Returns the text
printed by the loop together with the error that escaped it, if any. -/
def streamLoop : List Chunk → String × Option String
  | [] => ("", none)
  | c :: rest =>
    match c.choices with
    | [] => ("", some "IndexError: list index out of range")
    | ch :: _ =>
      match ch.delta.content with
      | none => streamLoop rest
      | some s =>
        let r := streamLoop rest
        (s ++ r.1, r.2)

/-- The non-streaming success prints at lines 64-69: content, a dash
separator line, then the four metadata lines. -/
def renderResponse (ch : Choice) (r : Response) : String :=
  ch.message.content ++ "\n"
    ++ dashes ++ "\n"
    ++ "Model: " ++ r.model ++ "\n"
    ++ "Completion tokens: " ++ toString r.usage.completion_tokens ++ "\n"
    ++ "Prompt tokens: " ++ toString r.usage.prompt_tokens ++ "\n"
    ++ "Total tokens: " ++ toString r.usage.total_tokens ++ "\n"

/-- Everything the script does after printing the preamble (the
`if args.stream` branch at lines 38-69), given the reply of the single
`create` call: the further standard-output text, the diagnostic text of the
exception that aborted the process (empty on success), and the exit code.
An uncaught exception in Python terminates the process with status 1. -/
def afterPreamble (args : Args) (req : RequestBody)
    (createStream : RequestBody → Except String (List Chunk))
    (create : RequestBody → Except String Response) : String × String × Nat :=
  if args.stream then
    match createStream req with
    | .error e => ("", e, 1)
    | .ok chunks =>
      match streamLoop chunks with
      | (out, some e) => (out, e, 1)
      | (out, none) => (out ++ "\n\n", "", 0)
  else
    match create req with
    | .error e => ("", e, 1)
    | .ok r =>
      match r.choices with
      | [] => ("", "IndexError: list index out of range", 1)
      | ch :: _ => (renderResponse ch r, "", 0)

/-- The observable outcome of one run of the script. -/
structure RunResult where
  client : OpenAI
  calls : List RequestBody
  stdout : String
  stderr : String
  exitCode : Nat
deriving Repr, DecidableEq

/-- The whole of `main()` (lines 13-69): parse the flags, build the client,
print the preamble, issue exactly one chat-completion call, and render its
result.  The endpoint is modelled by two oracles, one for the streaming call
and one for the non-streaming call; `.error` models any exception the call
raises (transport failure, authentication failure, ...). -/
def main (cmd : CmdLine) (env : Env)
    (createStream : RequestBody → Except String (List Chunk))
    (create : RequestBody → Except String Response) : RunResult :=
  let args := parse_args cmd env
  let req := request_of args
  let res := afterPreamble args req createStream create
  { client := { api_key := args.api_key, base_url := args.base_url }
    calls := [req]
    stdout := preamble args ++ res.1
    stderr := res.2.1
    exitCode := res.2.2 }

/-- The fragments of a chunk sequence as the spec describes them: the
non-null content of the first choice of each chunk, in arrival order. -/
def fragments (chunks : List Chunk) : List String :=
  chunks.filterMap fun c =>
    match c.choices with
    | [] => none
    | ch :: _ => ch.delta.content

/-- Flag resolution as the spec words it: the flag value when given,
otherwise the environment variable when set, otherwise the literal
fallback. -/
def specResolve (flag envVal : Option String) (fallback : String) : String :=
  match flag with
  | some v => v
  | none =>
    match envVal with
    | some v => v
    | none => fallback

/-- Concatenation of a list of strings in order, with no delimiter, as the
spec describes the streamed output. -/
def concatAll : List String → String
  | [] => ""
  | s :: rest => s ++ concatAll rest

/-! Concrete fixtures used to instantiate the theorems below: a command line
with no flags, one with only `--stream`, one passing empty strings, an empty
environment, and endpoint oracles returning fixed replies. -/

/-- Command line with no flags given. -/
def cmdW : CmdLine :=
  { api_key := none, base_url := none, model := none, prompt := none, stream_given := false }

/-- Command line with only `--stream` given. -/
def cmdS : CmdLine := { cmdW with stream_given := true }

/-- Command line passing `--api-key ""` and `--base-url ""`. -/
def cmdEmpty : CmdLine := { cmdW with api_key := some "", base_url := some "" }

/-- Environment with neither variable set. -/
def envW : Env := { cursor_api_key := none, cursor_base_url := none }

/-- A non-streaming response with content `Hello` and usage
`prompt=5, completion=2, total=7` (the example of the spec). -/
def respHello : Response :=
  { choices := [{ message := { content := "Hello" } }]
    model := "claude-3.7-sonnet-thinking"
    usage := { prompt_tokens := 5, completion_tokens := 2, total_tokens := 7 } }

/-- Endpoint oracle whose non-streaming call returns `respHello`. -/
def okHello : RequestBody → Except String Response := fun _ => .ok respHello

/-- A streaming chunk with one choice carrying the given delta content. -/
def chunkOf (s : Option String) : Chunk := { choices := [{ delta := { content := s } }] }

/-- Endpoint oracle whose streaming call emits the fragments `Hel`, `lo`. -/
def streamHello2 : RequestBody → Except String (List Chunk) :=
  fun _ => .ok [chunkOf (some "Hel"), chunkOf (some "lo")]

/-- Endpoint oracle whose streaming call emits `Hel`, a null-content chunk,
then `lo`. -/
def streamHelloNull : RequestBody → Except String (List Chunk) :=
  fun _ => .ok [chunkOf (some "Hel"), chunkOf none, chunkOf (some "lo")]

/-- Streaming oracle that is never consulted in non-streaming fixtures. -/
def noStream : RequestBody → Except String (List Chunk) := fun _ => .error "unused"

/-- Non-streaming oracle that is never consulted in streaming fixtures. -/
def noCreate : RequestBody → Except String Response := fun _ => .error "unused"

/-- Streaming oracle whose call raises a transport error. -/
def failStream : RequestBody → Except String (List Chunk) :=
  fun _ => .error "Connection error"

/-- Non-streaming oracle whose call raises a transport error. -/
def failCreate : RequestBody → Except String Response :=
  fun _ => .error "Connection error"

/-! Helper lemmas shared by the claim theorems. -/

/-- The streaming loop, on a chunk sequence in which every chunk has at least
one choice, raises no error and prints exactly the concatenation of the
non-null fragments in order. -/
theorem streamLoop_ok (chunks : List Chunk)
    (h : ∀ c ∈ chunks, c.choices ≠ []) :
    streamLoop chunks = (concatAll (fragments chunks), none) := by
  induction chunks with
  | nil => rfl
  | cons c rest ih =>
    have hc := h c (by simp)
    have hrest : ∀ x ∈ rest, x.choices ≠ [] := fun x hx => h x (by simp [hx])
    cases hcs : c.choices with
    | nil => exact absurd hcs hc
    | cons ch cht =>
      cases hcont : ch.delta.content with
      | none =>
        simp [streamLoop, hcs, hcont, ih hrest, fragments, concatAll]
      | some s =>
        simp [streamLoop, hcs, hcont, ih hrest, fragments, concatAll]

/-- The streaming flag of the resolved arguments is exactly whether
`--stream` was given. -/
theorem stream_of_parse (cmd : CmdLine) (env : Env) :
    (parse_args cmd env).stream = cmd.stream_given := rfl

/-! The claim theorems. -/

/-- C1: every run of the script performs exactly one chat-completion call,
whose request body carries a one-element message array with role `user` and
the configured prompt as content, together with the configured model
identifier and a streaming boolean equal to the streaming flag. -/
theorem claim_C1_one_call (cmd : CmdLine) (env : Env)
    (cs : RequestBody → Except String (List Chunk))
    (co : RequestBody → Except String Response) :
    (ExampleScript.main cmd env cs co).calls =
      [{ model := (parse_args cmd env).model
         messages := [{ role := "user", content := (parse_args cmd env).prompt }]
         stream := (parse_args cmd env).stream }] := rfl

set_option maxRecDepth 8192 in
/-- C2 (counterexample): at the example input (content `Hello`, usage
`prompt=5, completion=2, total=7`), the printed output is not the response
content followed directly by the four metadata lines: a separator line of 50
dashes stands between them. -/
theorem claim_C2_counterexample :
    (ExampleScript.main cmdW envW noStream okHello).stdout ≠
      preamble (parse_args cmdW envW)
      ++ ("Hello" ++ "\n"
          ++ "Model: " ++ "claude-3.7-sonnet-thinking" ++ "\n"
          ++ "Completion tokens: " ++ "2" ++ "\n"
          ++ "Prompt tokens: " ++ "5" ++ "\n"
          ++ "Total tokens: " ++ "7" ++ "\n") ∧
    (ExampleScript.main cmdW envW noStream okHello).stdout =
      preamble (parse_args cmdW envW)
      ++ ("Hello" ++ "\n" ++ dashes ++ "\n"
          ++ "Model: " ++ "claude-3.7-sonnet-thinking" ++ "\n"
          ++ "Completion tokens: " ++ "2" ++ "\n"
          ++ "Prompt tokens: " ++ "5" ++ "\n"
          ++ "Total tokens: " ++ "7" ++ "\n") := by
  constructor <;> decide

/-- C2 (amended): on every successful non-streaming run, the output after the
preamble is the response content, then a separator line of 50 dashes, then
exactly four metadata lines echoing the model identifier, the
completion-token count, the prompt-token count, and the total-token count
returned by the endpoint. -/
theorem claim_C2_amended (cmd : CmdLine) (env : Env)
    (cs : RequestBody → Except String (List Chunk))
    (co : RequestBody → Except String Response)
    (r : Response) (ch : Choice) (t : List Choice)
    (hs : cmd.stream_given = false)
    (hr : co (request_of (parse_args cmd env)) = .ok r)
    (hch : r.choices = ch :: t) :
    (ExampleScript.main cmd env cs co).stdout =
      preamble (parse_args cmd env)
      ++ (ch.message.content ++ "\n"
          ++ dashes ++ "\n"
          ++ "Model: " ++ r.model ++ "\n"
          ++ "Completion tokens: " ++ toString r.usage.completion_tokens ++ "\n"
          ++ "Prompt tokens: " ++ toString r.usage.prompt_tokens ++ "\n"
          ++ "Total tokens: " ++ toString r.usage.total_tokens ++ "\n") := by
  have hx : (parse_args cmd env).stream = false := by rw [stream_of_parse, hs]
  simp [ExampleScript.main, afterPreamble, hx, hr, hch, renderResponse]

/-- C2 (witness): the amended statement at the example input. -/
theorem claim_C2_witness :
    (ExampleScript.main cmdW envW noStream okHello).stdout =
      preamble (parse_args cmdW envW)
      ++ ("Hello" ++ "\n"
          ++ dashes ++ "\n"
          ++ "Model: " ++ "claude-3.7-sonnet-thinking" ++ "\n"
          ++ "Completion tokens: " ++ toString (2 : Nat) ++ "\n"
          ++ "Prompt tokens: " ++ toString (5 : Nat) ++ "\n"
          ++ "Total tokens: " ++ toString (7 : Nat) ++ "\n") := by
  exact claim_C2_amended cmdW envW noStream okHello respHello
    { message := { content := "Hello" } } [] rfl rfl rfl

/-- C3: on every streaming run whose call yields a chunk sequence in which
every chunk has at least one choice, the content printed before the trailing
newlines is the concatenation, in arrival order and with no delimiter, of the
non-null content fragments; null-content chunks contribute nothing. -/
theorem claim_C3_stream_concat (cmd : CmdLine) (env : Env)
    (cs : RequestBody → Except String (List Chunk))
    (co : RequestBody → Except String Response)
    (chunks : List Chunk)
    (hs : cmd.stream_given = true)
    (hok : cs (request_of (parse_args cmd env)) = .ok chunks)
    (hne : ∀ c ∈ chunks, c.choices ≠ []) :
    (ExampleScript.main cmd env cs co).stdout =
      preamble (parse_args cmd env) ++ (concatAll (fragments chunks) ++ "\n\n") := by
  have hx : (parse_args cmd env).stream = true := by rw [stream_of_parse, hs]
  simp [ExampleScript.main, afterPreamble, hx, hok, streamLoop_ok chunks hne]

/-- C3 (witness): with fragments `Hel`, null, `lo` the streamed content is
`Hello`. -/
theorem claim_C3_witness :
    (ExampleScript.main cmdS envW streamHelloNull noCreate).stdout =
      preamble (parse_args cmdS envW) ++ ("Hello" ++ "\n\n") := by
  have h := claim_C3_stream_concat cmdS envW streamHelloNull noCreate
    [chunkOf (some "Hel"), chunkOf none, chunkOf (some "lo")] rfl rfl (by decide)
  exact h

/-- C4: when the endpoint call fails (the call raises, or a non-streaming
response carries no choice), the run exits with non-zero status and prints
nothing beyond the preamble; in particular no metadata line and no retry. -/
theorem claim_C4_failure (cmd : CmdLine) (env : Env)
    (cs : RequestBody → Except String (List Chunk))
    (co : RequestBody → Except String Response)
    (h : (cmd.stream_given = true ∧ ∃ e, cs (request_of (parse_args cmd env)) = .error e)
       ∨ (cmd.stream_given = false ∧ ∃ e, co (request_of (parse_args cmd env)) = .error e)
       ∨ (cmd.stream_given = false ∧
            ∃ r, co (request_of (parse_args cmd env)) = .ok r ∧ r.choices = [])) :
    (ExampleScript.main cmd env cs co).exitCode ≠ 0 ∧
    (ExampleScript.main cmd env cs co).stdout = preamble (parse_args cmd env) := by
  rcases h with ⟨hs, e, he⟩ | ⟨hs, e, he⟩ | ⟨hs, r, hr, hch⟩
  · have hx : (parse_args cmd env).stream = true := by rw [stream_of_parse, hs]
    simp [ExampleScript.main, afterPreamble, hx, he]
  · have hx : (parse_args cmd env).stream = false := by rw [stream_of_parse, hs]
    simp [ExampleScript.main, afterPreamble, hx, he]
  · have hx : (parse_args cmd env).stream = false := by rw [stream_of_parse, hs]
    simp [ExampleScript.main, afterPreamble, hx, hr, hch]

/-- C4 (witness): a non-streaming run whose call raises a transport error
exits non-zero having printed only the preamble. -/
theorem claim_C4_witness :
    (ExampleScript.main cmdW envW failStream failCreate).exitCode ≠ 0 ∧
    (ExampleScript.main cmdW envW failStream failCreate).stdout =
      preamble (parse_args cmdW envW) :=
  claim_C4_failure cmdW envW failStream failCreate
    (Or.inr (Or.inl ⟨rfl, "Connection error", rfl⟩))

/-- C5: when `--model` is not given, the request sent carries the default
model literal; when `--prompt` is not given, the message content sent is the
default prompt literal. -/
theorem claim_C5_defaults (cmd : CmdLine) (env : Env)
    (cs : RequestBody → Except String (List Chunk))
    (co : RequestBody → Except String Response) :
    (cmd.model = none →
      ∃ req, (ExampleScript.main cmd env cs co).calls = [req] ∧
        req.model = "claude-3.7-sonnet-thinking") ∧
    (cmd.prompt = none →
      ∃ req, (ExampleScript.main cmd env cs co).calls = [req] ∧
        req.messages =
          [{ role := "user", content := "Explain quantum computing in simple terms." }]) := by
  constructor
  · intro h
    exact ⟨request_of (parse_args cmd env), rfl, by simp [request_of, parse_args, h]⟩
  · intro h
    exact ⟨request_of (parse_args cmd env), rfl, by simp [request_of, parse_args, h]⟩

/-- C5 (witness): with no flags given, the single request carries both
default literals. -/
theorem claim_C5_witness :
    (∃ req, (ExampleScript.main cmdW envW noStream okHello).calls = [req] ∧
      req.model = "claude-3.7-sonnet-thinking") ∧
    (∃ req, (ExampleScript.main cmdW envW noStream okHello).calls = [req] ∧
      req.messages =
        [{ role := "user", content := "Explain quantum computing in simple terms." }]) :=
  ⟨(claim_C5_defaults cmdW envW noStream okHello).1 rfl,
   (claim_C5_defaults cmdW envW noStream okHello).2 rfl⟩

/-- C6: the client's credential and base address are resolved as flag value,
else environment variable, else literal fallback; and when `--stream` is not
given the request's streaming boolean is false. -/
theorem claim_C6_precedence (cmd : CmdLine) (env : Env)
    (cs : RequestBody → Except String (List Chunk))
    (co : RequestBody → Except String Response) :
    (ExampleScript.main cmd env cs co).client.api_key =
      specResolve cmd.api_key env.cursor_api_key "sk-cursor-api-key" ∧
    (ExampleScript.main cmd env cs co).client.base_url =
      specResolve cmd.base_url env.cursor_base_url "http://localhost:3010/v1" ∧
    (cmd.stream_given = false →
      (request_of (parse_args cmd env)).stream = false) := by
  refine ⟨?_, ?_, ?_⟩
  · show (parse_args cmd env).api_key = _
    simp only [parse_args]
    cases cmd.api_key <;> cases env.cursor_api_key <;> simp [specResolve]
  · show (parse_args cmd env).base_url = _
    simp only [parse_args]
    cases cmd.base_url <;> cases env.cursor_base_url <;> simp [specResolve]
  · intro h
    simp [request_of, parse_args, h]

/-- C6 (witness): with no flags and no environment variables, the client
receives the two literal fallbacks and the request is non-streaming. -/
theorem claim_C6_witness :
    (ExampleScript.main cmdW envW noStream okHello).client.api_key =
      specResolve none none "sk-cursor-api-key" ∧
    (ExampleScript.main cmdW envW noStream okHello).client.base_url =
      specResolve none none "http://localhost:3010/v1" ∧
    (request_of (parse_args cmdW envW)).stream = false :=
  ⟨(claim_C6_precedence cmdW envW noStream okHello).1,
   (claim_C6_precedence cmdW envW noStream okHello).2.1,
   (claim_C6_precedence cmdW envW noStream okHello).2.2 rfl⟩

/-- C7 (counterexample): after the chunk sequence `Hel`, `lo` is exhausted the
script does not print a single trailing newline: `print("\n")` emits two
newline characters. -/
theorem claim_C7_counterexample :
    (ExampleScript.main cmdS envW streamHello2 noCreate).stdout ≠
      preamble (parse_args cmdS envW) ++ ("Hello" ++ "\n") ∧
    (ExampleScript.main cmdS envW streamHello2 noCreate).stdout =
      preamble (parse_args cmdS envW) ++ ("Hello" ++ "\n\n") := by
  constructor <;> decide

/-- C7 (amended): on every streaming run whose chunk sequence is consumed
without error, once the sequence is exhausted the script prints nothing
further except the final `print("\n")`, which emits exactly two newline
characters (its argument plus the line terminator). -/
theorem claim_C7_amended (cmd : CmdLine) (env : Env)
    (cs : RequestBody → Except String (List Chunk))
    (co : RequestBody → Except String Response)
    (chunks : List Chunk)
    (hs : cmd.stream_given = true)
    (hok : cs (request_of (parse_args cmd env)) = .ok chunks)
    (hnoerr : (streamLoop chunks).2 = none) :
    (ExampleScript.main cmd env cs co).stdout =
      preamble (parse_args cmd env) ++ ((streamLoop chunks).1 ++ "\n\n") := by
  have hx : (parse_args cmd env).stream = true := by rw [stream_of_parse, hs]
  rcases hsl : streamLoop chunks with ⟨out, err⟩
  rw [hsl] at hnoerr
  subst hnoerr
  simp [ExampleScript.main, afterPreamble, hx, hok, hsl]

/-- C7 (witness): the amended statement at the chunk sequence `Hel`, `lo`. -/
theorem claim_C7_witness :
    (ExampleScript.main cmdS envW streamHello2 noCreate).stdout =
      preamble (parse_args cmdS envW) ++
        ((streamLoop [chunkOf (some "Hel"), chunkOf (some "lo")]).1 ++ "\n\n") :=
  claim_C7_amended cmdS envW streamHello2 noCreate
    [chunkOf (some "Hel"), chunkOf (some "lo")] rfl rfl (by decide)

/-- C8 (counterexample): the script accepts explicitly supplied empty strings
without validation: with `--api-key ""` and `--base-url ""` a run completes
with exit code 0 while the client was built from two empty strings. -/
theorem claim_C8_counterexample :
    (ExampleScript.main cmdEmpty envW noStream okHello).client.api_key = "" ∧
    (ExampleScript.main cmdEmpty envW noStream okHello).client.base_url = "" ∧
    (ExampleScript.main cmdEmpty envW noStream okHello).exitCode = 0 ∧
    (ExampleScript.main cmdEmpty envW noStream okHello).calls ≠ [] := by
  refine ⟨rfl, rfl, rfl, by decide⟩

/-- C8 (amended): the script never validates the credential or base address;
they are non-empty provided every explicitly supplied source (flag or
environment variable) is a non-empty string, the literal fallbacks being
non-empty. -/
theorem claim_C8_amended (cmd : CmdLine) (env : Env)
    (cs : RequestBody → Except String (List Chunk))
    (co : RequestBody → Except String Response)
    (hk : ∀ s, cmd.api_key = some s → s ≠ "")
    (hek : ∀ s, env.cursor_api_key = some s → s ≠ "")
    (hb : ∀ s, cmd.base_url = some s → s ≠ "")
    (heb : ∀ s, env.cursor_base_url = some s → s ≠ "") :
    (ExampleScript.main cmd env cs co).client.api_key ≠ "" ∧
    (ExampleScript.main cmd env cs co).client.base_url ≠ "" := by
  constructor
  · show (parse_args cmd env).api_key ≠ ""
    cases hc : cmd.api_key with
    | some s => simpa [parse_args, hc] using hk s hc
    | none =>
      cases hev : env.cursor_api_key with
      | some s => simpa [parse_args, hc, hev] using hek s hev
      | none => simp [parse_args, hc, hev]
  · show (parse_args cmd env).base_url ≠ ""
    cases hc : cmd.base_url with
    | some s => simpa [parse_args, hc] using hb s hc
    | none =>
      cases hev : env.cursor_base_url with
      | some s => simpa [parse_args, hc, hev] using heb s hev
      | none => simp [parse_args, hc, hev]

/-- C8 (witness): with no flags and no environment variables (so every
supplied source is vacuously non-empty) the client fields are non-empty. -/
theorem claim_C8_witness :
    (ExampleScript.main cmdW envW noStream okHello).client.api_key ≠ "" ∧
    (ExampleScript.main cmdW envW noStream okHello).client.base_url ≠ "" :=
  claim_C8_amended cmdW envW noStream okHello
    (fun s h => by simp [cmdW] at h) (fun s h => by simp [envW] at h)
    (fun s h => by simp [cmdW] at h) (fun s h => by simp [envW] at h)

/-- C9: the streaming loop indexes `chunk.choices[0]` on every chunk; it
raises no out-of-bounds error exactly when every chunk of the sequence has at
least one choice, and under that precondition the error branch is
unreachable. -/
theorem claim_C9_index_total (chunks : List Chunk) :
    (streamLoop chunks).2 = none ↔ ∀ c ∈ chunks, c.choices ≠ [] := by
  induction chunks with
  | nil => simp [streamLoop]
  | cons c rest ih =>
    cases hcs : c.choices with
    | nil => simp [streamLoop, hcs]
    | cons ch cht =>
      cases hcont : ch.delta.content with
      | none => simp [streamLoop, hcs, hcont, ih]
      | some s => simp [streamLoop, hcs, hcont, ih]

/-- C9 (witness): on a concrete sequence whose chunks all carry a choice, the
loop raises no error. -/
theorem claim_C9_witness :
    (streamLoop [chunkOf (some "Hel"), chunkOf none, chunkOf (some "lo")]).2 = none :=
  (claim_C9_index_total [chunkOf (some "Hel"), chunkOf none, chunkOf (some "lo")]).mpr
    (by decide)

/-- C10: every run, streaming or not, successful or not, writes the three
preamble lines first — the `Sending request to <model>...` line, the
`Prompt: <prompt>` line, and a line of 50 dash characters — before any
response output. -/
theorem claim_C10_preamble (cmd : CmdLine) (env : Env)
    (cs : RequestBody → Except String (List Chunk))
    (co : RequestBody → Except String Response) :
    (∃ rest, (ExampleScript.main cmd env cs co).stdout =
        preamble (parse_args cmd env) ++ rest) ∧
    preamble (parse_args cmd env) =
      "Sending request to " ++ (parse_args cmd env).model ++ "...\n"
        ++ "Prompt: " ++ (parse_args cmd env).prompt ++ "\n"
        ++ dashes ++ "\n" ∧
    dashes.length = 50 ∧
    (dashes.data.all fun chr => chr == '-') = true := by
  refine ⟨⟨(afterPreamble (parse_args cmd env) (request_of (parse_args cmd env)) cs co).1,
    rfl⟩, rfl, by decide, by decide⟩

end ExampleScript
